import Mathlib

/-
Verification development for the kartbot backend server.

The definitions below are a shallow embedding of the JavaScript source:
strings are Lean `String`s, JS `null`/`undefined` is `Option.none`,
JS numbers appearing in the knoledge base are `Nat`, and IEEE floats used by
the vector index are modelled as real numbers `ℝ`.  Fields that may be
absent from the JSON knowledge payload are `Option` fields, and JS
truthiness tests are made explicit (`""`, `0`, `null` are falsy).
-/

/- ===== String helpers ===== -/

/-- JS `hay.includes(needle)`: substring containment check. -/
def strContains (hay needle : String) : Bool :=
  hay.toList.tails.any (fun t => needle.toList.isPrefixOf t)

/-- Whitespace for JS `trim()` (space, tab, line terminators, verticals). -/
def isTrimWs (c : Char) : Bool :=
  c = ' ' || c = '\t' || c = '\n' || c = '\r' || c = '\x0b' || c = '\x0c'

/-- JS `s.trim()`: drop whitespace from both ends. -/
def trimStr (s : String) : String :=
  String.mk (((s.toList.dropWhile isTrimWs).reverse.dropWhile isTrimWs).reverse)

/-- `normQ` from the server: lower-case then trim. -/
def normQ (s : String) : String :=
  trimStr (String.mk (s.toList.map Char.toLower))

/-- `hasAny` from the server: does the haystack contain any of the needles. -/
def hasAny (hay : String) (needles : List String) : Bool :=
  needles.any (fun n => strContains hay n)

/-- `enforceGBP`: `(t || "").replace(/\$/g, "£")` — every dollar sign becomes
a pound sign; a missing string becomes the empty string. -/
def enforceGBP (t : Option String) : String :=
  String.mk ((t.getD "").toList.map (fun c => if c = '$' then '£' else c))

/- ===== stripHtmlToText: the chain of regex replacements ===== -/

/-- Whitespace class for the `\s` in the `<br\s*\/?>` regex. -/
def isWsChar (c : Char) : Bool :=
  c = ' ' || c = '\t' || c = '\n' || c = '\r' || c = '\x0b' || c = '\x0c'

/-- After the literal `<br`, the regex `<br\s*\/?>` allows whitespace, an
optional slash, then `>`; returns the remainder on a match. -/
def brTail : List Char → Option (List Char)
  | [] => none
  | c :: cs =>
    if isWsChar c then brTail cs
    else if c = '/' then
      match cs with
      | '>' :: t => some t
      | _ => none
    else if c = '>' then some cs
    else none

/-- Matcher for `/<br\s*\/?>/i` at the head of the list. -/
def matchBr : List Char → Option (List Char)
  | '<' :: b :: r :: rest =>
    if (b = 'b' || b = 'B') && (r = 'r' || r = 'R') then brTail rest else none
  | _ => none

/-- Case-insensitive literal matcher (pattern given in lower case). -/
def matchCI : List Char → List Char → Option (List Char)
  | [], rest => some rest
  | _ :: _, [] => none
  | p :: ps, c :: cs => if c.toLower = p then matchCI ps cs else none

/-- Scan to the first `>` for the `[^>]*>` part of `/<[^>]*>/`. -/
def tagTail : List Char → Option (List Char)
  | [] => none
  | c :: cs => if c = '>' then some cs else tagTail cs

/-- Matcher for `/<[^>]*>/` at the head of the list. -/
def matchTag : List Char → Option (List Char)
  | '<' :: rest => tagTail rest
  | _ => none

/-- Count the leading newlines and return the remainder. -/
def countNl : List Char → Nat × List Char
  | '\n' :: cs => let p := countNl cs; (p.1 + 1, p.2)
  | [] => (0, [])
  | c :: cs => (0, c :: cs)

/-- Greedy matcher for `/\n{3,}/` at the head of the list. -/
def matchNl3 (l : List Char) : Option (List Char) :=
  let p := countNl l
  if 3 ≤ p.1 then some p.2 else none

/-- One pass of a global regex replacement: at each position try the matcher;
on a match emit the substitution and continue after the match.  Fuel bounds
the recursion; every matcher above consumes at least one character, so fuel
equal to the input length computes the full replacement. -/
def scanRepl (f : List Char → Option (List Char)) (sub : List Char) :
    Nat → List Char → List Char
  | 0, l => l
  | _ + 1, [] => []
  | fuel + 1, c :: cs =>
    match f (c :: cs) with
    | some rest => sub ++ scanRepl f sub fuel rest
    | none => c :: scanRepl f sub fuel cs

/-- Global replacement driven by a matcher, with fuel set to the length. -/
def replaceScan (f : List Char → Option (List Char)) (sub : String)
    (s : List Char) : List Char :=
  scanRepl f sub.toList s.length s

/-- `stripHtmlToText` from the server: break tags to newlines, strip all
remaining tags, squeeze runs of three or more newlines, trim. -/
def stripHtmlToText (html : String) : String :=
  let l1 := replaceScan matchBr "\n" html.toList
  let l2 := replaceScan (matchCI "</li>".toList) "\n" l1
  let l3 := replaceScan (matchCI "</p>".toList) "\n" l2
  let l4 := replaceScan matchTag "" l3
  let l5 := replaceScan matchNl3 "\n\n" l4
  trimStr (String.mk l5)

/- ===== Slot logic (track/day) ===== -/

/-- `detectTrackIdFromText` from the server. -/
def detectTrackIdFromText (q : String) : Option String :=
  let s := normQ q
  if strContains s "mile end" || strContains s "mileend" || strContains s "london" then
    some "mile_end"
  else if strContains s "gillingham" || strContains s "kent" then
    some "gillingham"
  else none

/-- JS `hit.charAt(0).toUpperCase() + hit.slice(1)`. -/
def capitalizeFirst (s : String) : String :=
  match s.toList with
  | [] => ""
  | c :: cs => String.mk (c.toUpper :: cs)

/-- The weekday names searched by `extractDayFromText`. -/
def dayNames : List String :=
  ["monday", "tuesday", "wednesday", "thursday", "friday", "saturday", "sunday"]

/-- `extractDayFromText` from the server. -/
def extractDayFromText (q : String) : Option String :=
  let s := normQ q
  (dayNames.find? (fun d => strContains s d)).map capitalizeFirst

/-- The topics that DO need track/day disambiguation. -/
def eligibilityTopics : List String :=
  ["use my tickets", "use tickets", "valid", "eligib", "can i use",
   "book", "booking", "reserve", "availability", "slots",
   "deposit", "pay", "payment", "48 hours", "whatsapp",
   "mile end", "london track"]

/-- The topics that do NOT need track/day disambiguation. -/
def generalTopics : List String :=
  ["what\x27s included", "whats included", "equipment", "helmet", "balaclava",
   "how many laps", "laps per session", "session length", "duration",
   "f1 simulator", "simulator", "refund", "expiry", "gift", "refer", "referral",
   "tickets left", "redeemed", "pin", "dashboard",
   "where", "location", "located", "postcode", "address", "tracks", "venues", "locations"]

/-- `questionNeedsEligibility` from the server: the general list is checked
first and wins; otherwise the eligibility list; otherwise false. -/
def questionNeedsEligibility (q : String) : Bool :=
  let s := normQ q
  if hasAny s generalTopics then false
  else if hasAny s eligibilityTopics then true
  else false

/- ===== Knowledge snapshot data model =====
The payload is JSON; fields that the server reads through optional
chaining are `Option` fields.  Track `id`, `name` and `region` are read
unguarded by the server and are modelled as plain strings. -/

/-- JS truthiness of an optional string (`undefined` and `""` are falsy). -/
def truthyS (o : Option String) : Bool := o.getD "" ≠ ""

/-- JS truthiness of an optional number (`undefined` and `0` are falsy). -/
def truthyN (o : Option Nat) : Bool := o.getD 0 ≠ 0

/-- JS truthiness of an optional boolean. -/
def truthyB (o : Option Bool) : Bool := o.getD false

/-- JS `a || b` on optional strings. -/
def jsOrS (a b : Option String) : Option String := if truthyS a then a else b

structure Urls where
  home : Option String := none
  safety : Option String := none
  book_tickets : Option String := none
  terms : Option String := none
  book_experience : Option String := none
  customer_dashboard : Option String := none
  deriving DecidableEq

structure KartsSec where
  type : Option String := none
  top_speed_mph : Option Nat := none
  max_on_track : Option Nat := none
  deriving DecidableEq

structure ReqSec where
  min_height_cm : Option Nat := none
  deriving DecidableEq

structure TrackInfoSec where
  length_m : Option Nat := none
  floodlit : Option Bool := none
  open_until : Option String := none
  deriving DecidableEq

structure SessionsSec where
  laps_per_session : Option Nat := none
  three_sessions_total_laps : Option Nat := none
  deriving DecidableEq

structure ExtrasSec where
  f1_simulator : Option Bool := none
  deriving DecidableEq

structure TrackSec where
  id : String
  name : String
  region : String
  indoor : Option Bool := none
  type : Option String := none
  karts : Option KartsSec := none
  requirements : Option ReqSec := none
  track : Option TrackInfoSec := none
  sessions : Option SessionsSec := none
  ticket_days_allowed : Option (List String) := none
  features : Option (List String) := none
  must_prebook : Option Bool := none
  extras : Option ExtrasSec := none
  deriving DecidableEq

structure SiteSec where
  urls : Option Urls := none
  tracks : Option (List TrackSec) := none
  deriving DecidableEq

structure OpeningSec where
  days : Option String := none
  hours : Option String := none
  deriving DecidableEq

structure EquipmentSec where
  included : Option (List String) := none
  deriving DecidableEq

structure FastAnswer where
  intent : String
  answer : String
  deriving DecidableEq

/-- Old-schema section `track_and_karts` (read by the earlier server). -/
structure TrackAndKartsSec where
  indoor : String
  kart_type : String
  top_speed_mph : Nat
  max_karts_on_track : Nat
  deriving DecidableEq

/-- Old-schema top-level `requirements` section. -/
structure ReqTopSec where
  adult_min_height_cm : Nat
  junior_min_height_cm : Nat
  shoes_count_towards_height : Bool
  deriving DecidableEq

/-- Old-schema top-level `sessions` section. -/
structure SessionsTopSec where
  per_ticket_includes : String
  laps_per_session_up_to : Nat
  typical_three_session_total_laps : Nat
  deriving DecidableEq

/-- The knowledge payload: every top-level section may be absent. -/
structure KBJson where
  site : Option SiteSec := none
  opening : Option OpeningSec := none
  equipment : Option EquipmentSec := none
  fast_answers : Option (List FastAnswer) := none
  track_and_karts : Option TrackAndKartsSec := none
  requirements : Option ReqTopSec := none
  sessions : Option SessionsTopSec := none
  deriving DecidableEq

/-- A derived chunk `{id, text, url}`. -/
structure Chunk where
  id : String
  text : String
  url : Option String
  deriving DecidableEq

/-- `kb.site?.urls` -/
def siteUrls (kb : KBJson) : Option Urls := kb.site.bind (fun s => s.urls)

/-- `kb.site?.urls?.home` -/
def urlHome (kb : KBJson) : Option String := (siteUrls kb).bind (fun u => u.home)

/-- `kb.site?.urls?.safety` -/
def urlSafety (kb : KBJson) : Option String := (siteUrls kb).bind (fun u => u.safety)

/-- `kb.site?.urls?.book_tickets` -/
def urlBookTickets (kb : KBJson) : Option String :=
  (siteUrls kb).bind (fun u => u.book_tickets)

/-- `kb.site?.urls?.terms` -/
def urlTerms (kb : KBJson) : Option String := (siteUrls kb).bind (fun u => u.terms)

/-- `kb.site?.urls?.book_experience` -/
def urlBookExperience (kb : KBJson) : Option String :=
  (siteUrls kb).bind (fun u => u.book_experience)

/-- The tracks array (`[]` when absent). -/
def kbTracks (kb : KBJson) : List TrackSec := (kb.site.bind (fun s => s.tracks)).getD []

/-- The per-track chunk of `flattenDocsFromKB`. -/
def trackChunk (kb : KBJson) (t : TrackSec) : Chunk :=
  let karts := t.karts.getD {}
  let req := t.requirements.getD {}
  let trk := t.track.getD {}
  let sess := t.sessions.getD {}
  let days := t.ticket_days_allowed.map (String.intercalate ", ")
  let feats := t.features.map (String.intercalate "; ")
  { id := "track_" ++ t.id
    text :=
      t.name ++ " (" ++ t.region ++ ") — " ++
        (if truthyB t.indoor then "indoor" else "outdoor") ++ " track. " ++
      (if truthyN trk.length_m then
        "Track length " ++ toString (trk.length_m.getD 0) ++ " m. " else "") ++
      (if truthyB trk.floodlit then "Floodlit for evening racing. " else "") ++
      (if truthyS trk.open_until then
        "Open until " ++ trk.open_until.getD "" ++ ". " else "") ++
      (if truthyS karts.type then "Karts: " ++ karts.type.getD "" ++ ". " else "") ++
      (if truthyN karts.top_speed_mph then
        "Top speed up to " ++ toString (karts.top_speed_mph.getD 0) ++ " mph. " else "") ++
      (if truthyN karts.max_on_track then
        "Max " ++ toString (karts.max_on_track.getD 0) ++ " karts on track. " else "") ++
      (if truthyN sess.laps_per_session then
        "Each session is " ++ toString (sess.laps_per_session.getD 0) ++ " laps. " else "") ++
      (if truthyN sess.three_sessions_total_laps then
        "3 sessions = " ++ toString (sess.three_sessions_total_laps.getD 0) ++
          " laps total. " else "") ++
      (if truthyN req.min_height_cm then
        "Minimum height " ++ toString (req.min_height_cm.getD 0) ++ " cm. " else "") ++
      (if truthyB t.must_prebook then "Must pre-book. " else "") ++
      (if truthyS days then
        "Karting Central tickets valid on: " ++ days.getD "" ++ ". " else "") ++
      (if truthyS feats then "Features: " ++ feats.getD "" ++ "." else "")
    url := urlHome kb }

/-- The two fixed Mile End chunks pushed when a track has id `mile_end`. -/
def mileEndChunks (kb : KBJson) : List Chunk :=
  [{ id := "mile_end_ticket_rules"
     text := "Mile End (London) ticket rules: minimum height 155 cm. " ++
       "Tickets can be used Monday, Tuesday, Wednesday, and Sunday only; must pre-book."
     url := jsOrS (urlBookExperience kb) (urlHome kb) },
   { id := "mile_end_sessions"
     text := "Mile End sessions: 1 session is always 8 laps on a 450 m floodlit outdoor track. " ++
       "3 sessions = 24 laps total; hour booking window with roughly 30 minutes of track time."
     url := jsOrS (urlBookExperience kb) (urlHome kb) }]

/-- The Gillingham F1 simulator chunk. -/
def gillinghamSimChunk (kb : KBJson) : Chunk :=
  { id := "gillingham_f1_sim"
    text := "Gillingham has an F1 simulator. With Karting Central tickets it is " ++
      "50% off at £5 per simulator session; simulator sessions are 10 minutes."
    url := urlHome kb }

/-- `flattenDocsFromKB` from the current server: the deterministic chunk
extraction, pushing chunks in source order. -/
def flattenDocsFromKB (kb : KBJson) : List Chunk :=
  let openingChunk : Chunk :=
    { id := "opening"
      text := trimStr ((kb.opening.bind (fun o => o.days)).getD "" ++ " Hours: " ++
        (kb.opening.bind (fun o => o.hours)).getD "")
      url := urlHome kb }
  let tracks := kbTracks kb
  let overview : Chunk :=
    { id := "tracks_overview"
      text := "Karting Central tracks: " ++
        String.intercalate "; "
          (tracks.map (fun t =>
            t.name ++ " (" ++ t.region ++ ") — " ++
              (if truthyB t.indoor then "indoor" else "outdoor") ++ " " ++
              (if truthyS t.type then t.type.getD "" else "karting"))) ++
        ". If the user doesn’t specify a track/day, ask which track (and day if Mile End)."
      url := urlHome kb }
  let perTrack := tracks.flatMap (fun t =>
    [trackChunk kb t] ++
    (if t.id = "mile_end" then mileEndChunks kb else []) ++
    (if t.id = "gillingham" && truthyB (t.extras.bind (fun e => e.f1_simulator)) then
      [gillinghamSimChunk kb] else []))
  let trackPart := if tracks = [] then [] else overview :: perTrack
  let inc := (kb.equipment.bind (fun e => e.included)).getD []
  let equipPart : List Chunk :=
    if inc = [] then []
    else [{ id := "equipment"
            text := "Included: " ++ String.intercalate ", " inc ++ "."
            url := urlSafety kb }]
  let dealsChunk : Chunk :=
    { id := "deals"
      text := "Session 2 & 3 discounted. Session 3 tiers: 1–4 £12; 5–8 £11; 9–12 £10."
      url := urlBookTickets kb }
  let promosChunk : Chunk :=
    { id := "promos"
      text := "Promotions do not apply on Saturdays."
      url := urlTerms kb }
  let hints := (kb.fast_answers.getD []).map (fun f =>
    { id := "hint_" ++ f.intent, text := "Hint: " ++ f.answer, url := urlHome kb })
  openingChunk :: (trackPart ++ equipPart ++ [dealsChunk, promosChunk] ++ hints)

/- ===== Fast routes ===== -/

/-- `buildTracksHtml`: the canned multi-location listing, or `none` when no
tracks are present. -/
def buildTracksHtml (kb : KBJson) : Option String :=
  let tracks := kbTracks kb
  if tracks = [] then none
  else some ("We currently run tracks in <strong>" ++
    String.intercalate " and "
      (tracks.map (fun t => t.name ++ " (" ++ t.region ++ ")")) ++
    "</strong>.")

def locationKeywords : List String :=
  ["where", "location", "located", "postcode", "address", "tracks", "venues", "locations"]

def dashboardKeywords : List String :=
  ["dashboard", "pin", "gift", "gifting", "referral", "credits",
   "tickets left", "redeemed", "tracking code", "my tickets",
   "check tickets", "ticket balance", "ticket checker", "custdash"]

def mileEndKeywords : List String := ["mile end", "mileend", "london track"]

/-- The fixed dashboard / ticket-checker reply of fast route 2. -/
def dashboardReply : String :=
  "Manage tickets, gifting and referrals in the \n" ++
  "<a href=\"https://pos.kartingcentral.co.uk/home/download/pos2/pos2/cdashlogin.php\">Customer Dashboard</a>.<br>\n" ++
  "For a quick check only, use the \n" ++
  "<a href=\"https://pos.kartingcentral.co.uk/home/download/pos2/pos2/custdash.php\">Ticket Checker</a>."

/-- The Mile End reply of fast route 3. -/
def mileEndReply (kb : KBJson) : String :=
  let be := if truthyS (urlBookExperience kb) then (urlBookExperience kb).getD ""
    else "https://pos.kartingcentral.co.uk/home/download/pos2/pos2/book_experience.php"
  "Mile End is our <strong>London</strong> outdoor electric track.<br>\n" ++
  "• <strong>8 laps</strong> per session on a <strong>450 m</strong> floodlit track<br>\n" ++
  "• Minimum height: <strong>155 cm</strong><br>\n" ++
  "• Tickets valid: <strong>Mon / Tue / Wed / Sun</strong> (pre-book required)<br>\n" ++
  "<a href=\"" ++ be ++ "\">Book Experience</a>"

/-- Disambiguation slots of a session. -/
structure Slots where
  trackId : Option String := none
  day : Option String := none
  deriving DecidableEq

/-- The slot update performed at the top of `fastRouteReply`: detected
values overwrite, absent detections leave the slot as it was. -/
def updateSlots (query : String) (slots : Slots) : Slots :=
  let s1 := match detectTrackIdFromText query with
    | some t => { slots with trackId := some t }
    | none => slots
  match extractDayFromText query with
  | some d => { s1 with day := some d }
  | none => s1

/-- Fast routes 2 and 3, tried when route 1 does not return. -/
def fastRouteTail (q : String) (kb : KBJson) : Option String :=
  if hasAny q dashboardKeywords then some dashboardReply
  else if hasAny q mileEndKeywords then some (mileEndReply kb)
  else none

/-- `fastRouteReply` from the server, as a pure function: updates the slots
from the message, then tries the three fast routes in order.  When route 1
matches but the KB holds no tracks, control falls through to routes 2/3,
exactly as in the source. -/
def fastRouteReply (query : String) (kb : KBJson) (slots : Slots) :
    Option String × Slots :=
  let q := normQ query
  let slots2 := updateSlots query slots
  let reply :=
    if hasAny q locationKeywords then
      match buildTracksHtml kb with
      | some tracksHtml => some (tracksHtml ++ "<br>Which one are you looking at?")
      | none => fastRouteTail q kb
    else fastRouteTail q kb
  (reply, slots2)

/- ===== Sessions ===== -/

structure Turn where
  role : String
  content : String
  deriving DecidableEq

/-- A session: turn history plus slots.  (`updatedAt` only drives the idle
timeout that ends a session lifetime and is not part of this model.) -/
structure Sess where
  turns : List Turn := []
  slots : Slots := {}
  deriving DecidableEq

def SESS_MAX_TURNS : Nat := 16

/-- `pushTurn`: append, truncating from the oldest end beyond the cap. -/
def pushTurn (s : Sess) (role content : String) : Sess :=
  let ts := s.turns ++ [⟨role, content⟩]
  { s with turns := if SESS_MAX_TURNS < ts.length then ts.drop (ts.length - SESS_MAX_TURNS) else ts }

/- ===== Vector index entries ===== -/

/-- Embedding vectors; IEEE floats are modelled as reals. -/
abbrev Vec : Type := List ℝ

/-- A vector-index entry `{id, embedding, meta}`. -/
structure VecEnt where
  id : String
  embedding : Vec
  meta : Chunk

/-- A retrieval hit `{v, score}`. -/
structure ScoredHit where
  v : VecEnt
  score : ℝ

/- ===== The /api/faq-response handler ===== -/

/-- A source attribution `{id, url}` as returned in the response JSON. -/
structure SourceRef where
  id : String
  url : Option String
  deriving DecidableEq

/-- The JSON body of a successful response. -/
structure ApiReply where
  response : String
  sources : List SourceRef
  sessionId : String

/-- Which branch of the handler produced the response. -/
inductive Route where
  | fast (html : String)
  | askTrack (html : String)
  | askDay (html : String)
  | toGen
  deriving DecidableEq

/-- The track-clarifying question of the handler. -/
def trackQuestion : String :=
  "Which track are you looking at — <strong>Gillingham</strong> or <strong>Mile End (London)</strong>?<br>" ++
  "<a href=\"https://pos.kartingcentral.co.uk/home/download/pos2/pos2/book_experience.php\">Book Experience</a>"

/-- The day-clarifying question of the handler. -/
def dayQuestion : String :=
  "What day are you looking to race at <strong>Mile End</strong>?<br>" ++
  "Tickets are valid <strong>Mon / Tue / Wed / Sun</strong> (pre-book required).<br>" ++
  "<a href=\"https://pos.kartingcentral.co.uk/home/download/pos2/pos2/book_experience.php\">Book Experience</a>"

/-- The pre-generation part of the handler: fast routes (which also update
slots), then the eligibility check and clarifying questions, else proceed
to retrieval+generation.  Returns the branch taken and the session as the
handler leaves it at that point. -/
def routeQuery (query : String) (kb : KBJson) (sess : Sess) : Route × Sess :=
  let fr := fastRouteReply query kb sess.slots
  let sess2 : Sess := { sess with slots := fr.2 }
  match fr.1 with
  | some fast =>
    let botHtml := enforceGBP (some fast)
    let s1 := pushTurn sess2 "user" query
    let s2 := pushTurn s1 "assistant" (stripHtmlToText botHtml)
    (.fast botHtml, s2)
  | none =>
    if questionNeedsEligibility query then
      if !truthyS sess2.slots.trackId then
        let s1 := pushTurn sess2 "user" query
        let s2 := pushTurn s1 "assistant" (stripHtmlToText trackQuestion)
        (.askTrack trackQuestion, s2)
      else if sess2.slots.trackId == some "mile_end" && !truthyS sess2.slots.day then
        let s1 := pushTurn sess2 "user" query
        let s2 := pushTurn s1 "assistant" (stripHtmlToText dayQuestion)
        (.askDay dayQuestion, s2)
      else (.toGen, sess2)
    else (.toGen, sess2)

/-- The fixed fallback when generation yields no usable text. -/
def genFallback : String := "Sorry, I couldn’t generate a reply."

/-- `enforceGBP(completion...content?.trim()) || fallback`. -/
def genResponseText (content : Option String) : String :=
  let t := enforceGBP (content.map trimStr)
  if t = "" then genFallback else t

/-- Result of one request to `/api/faq-response`. -/
inductive HandlerResult where
  | badRequest
  | notReady
  | ok (route : Route) (reply : ApiReply) (sess : Sess)

/-- One request to `/api/faq-response` as a pure function.  The embedding
and generation providers are oracles: `retrieved` stands for the result of
`retrieve(convoText + query, 5)` and `genContent` for the completion text;
both are consulted only on the generation path. -/
def handleRequest (query : Option String) (kb : Option KBJson) (sessionId : String)
    (sess : Sess) (retrieved : List ScoredHit) (genContent : Option String) :
    HandlerResult :=
  match query with
  | none => .badRequest
  | some q =>
    if q = "" then .badRequest
    else match kb with
    | none => .notReady
    | some k =>
      let r := routeQuery q k sess
      match r.1 with
      | .fast html => .ok (.fast html) ⟨html, [], sessionId⟩ r.2
      | .askTrack html => .ok (.askTrack html) ⟨html, [], sessionId⟩ r.2
      | .askDay html => .ok (.askDay html) ⟨html, [], sessionId⟩ r.2
      | .toGen =>
        let text := genResponseText genContent
        let s1 := pushTurn r.2 "user" q
        let s2 := pushTurn s1 "assistant" (stripHtmlToText text)
        let sources := retrieved.map (fun rr => ({ id := rr.v.id, url := rr.v.meta.url } : SourceRef))
        .ok .toGen ⟨text, sources, sessionId⟩ s2

/-- The inputs of one request, for reasoning about request sequences. -/
structure ReqIn where
  query : Option String
  kb : Option KBJson
  sessionId : String
  retrieved : List ScoredHit
  genContent : Option String

/-- The session state after one request (unchanged on 400/503). -/
def stepSession (sess : Sess) (r : ReqIn) : Sess :=
  match handleRequest r.query r.kb r.sessionId sess r.retrieved r.genContent with
  | .ok _ _ s2 => s2
  | _ => sess

/-- The session state after a sequence of requests in one session lifetime. -/
def runSession (rs : List ReqIn) (sess : Sess) : Sess := rs.foldl stepSession sess

/- ===== KB fetch ===== -/

/-- The remote response consumed by `fetchKB`: 304, an HTTP error, or a
body whose JSON parse may fail, plus the validator headers. -/
inductive FetchResp where
  | notModified
  | httpError (status : Nat)
  | ok (body : Except String KBJson) (etag : Option String) (lastModified : Option String)

/-- The module state mutated by `fetchKB`/`rebuildEmbeddings`. -/
structure KBState where
  kb : Option KBJson := none
  docs : List Chunk := []
  vectors : List VecEnt := []
  etag : Option String := none
  lastModified : Option String := none

/-- `resp.data.map((e, i) => ({id: DOCS[i].id, embedding: e.embedding,
meta: DOCS[i]}))`; the zip truncates at the shorter list, and the embedding
provider returns one vector per input text. -/
def mkVectors (docs : List Chunk) (embs : List Vec) : List VecEnt :=
  (List.zip embs docs).map (fun p => ⟨p.2.id, p.1, p.2⟩)

/-- The conditional-fetch preconditions: only a non-forced load sends the
stored validators. -/
def condHeaders (force : Bool) (s : KBState) : Option String × Option String :=
  if force then (none, none) else (s.etag, s.lastModified)

/-- `rebuildEmbeddings` of the current server, with the embedding provider
as an oracle; a missing snapshot is a no-op. -/
def rebuildEmbeddings (embed : List String → List Vec) (s : KBState) : KBState :=
  match s.kb with
  | none => s
  | some k =>
    let docs := flattenDocsFromKB k
    let vecs := mkVectors docs (embed (docs.map (fun d => d.text)))
    { s with docs := docs, vectors := vecs }

/-- `fetchKB` of the current server (src/unnamed/part_000), as a pure
function of the remote response: note that a well-formed JSON body is
ingested without any structural validation.  The returned pair is the
function result (`Except` models a thrown error) and the module state
after the call. -/
def fetchKB (kbUrlSet : Bool) (_force : Bool) (resp : FetchResp)
    (embed : List String → List Vec) (s : KBState) : Except String Bool × KBState :=
  if !kbUrlSet then (.error "KB_URL not set", s)
  else
    match resp with
    | .notModified => (.ok false, s)
    | .httpError st => (.error ("KB fetch failed: " ++ toString st), s)
    | .ok body et lm =>
      match body with
      | .error e => (.error e, s)
      | .ok j =>
        let s1 := { s with kb := some j, etag := jsOrS et s.etag,
                           lastModified := jsOrS lm s.lastModified }
        (.ok true, rebuildEmbeddings embed s1)

/-- JS string interpolation of a possibly-undefined value. -/
def jsStr (o : Option String) : String := o.getD "undefined"

/-- `flattenDocsFromKB` of the earlier server (src/unnamed/part_001): it
reads sections without optional chaining, so a missing section means a
thrown `TypeError`, modelled as `none`. -/
def flattenDocsFromKBLegacy (kb : KBJson) : Option (List Chunk) :=
  match kb.site.bind (fun s => s.urls), kb.opening, kb.track_and_karts,
        kb.requirements, kb.equipment.bind (fun e => e.included),
        kb.sessions, kb.fast_answers with
  | some urls, some o, some tk, some r, some inc, some ss, some fa =>
    some ([
      { id := "opening_overview"
        text := jsStr o.days ++ " Hours: " ++ jsStr o.hours
        url := urls.home },
      { id := "track_and_karts"
        text := "Indoor: " ++ tk.indoor ++ ". Kart type: " ++ tk.kart_type ++
          ". Top speed up to " ++ toString tk.top_speed_mph ++ " mph. Max " ++
          toString tk.max_karts_on_track ++ " karts on track."
        url := urls.home },
      { id := "requirements"
        text := "Adult min height: " ++ toString r.adult_min_height_cm ++
          " cm (5ft). Junior min height: " ++ toString r.junior_min_height_cm ++
          " cm. Shoes count toward height: " ++
          (if r.shoes_count_towards_height then "yes" else "no") ++ "."
        url := urls.safety },
      { id := "equipment"
        text := "Included equipment: " ++ String.intercalate ", " inc ++ "."
        url := urls.safety },
      { id := "sessions"
        text := "Per ticket: " ++ ss.per_ticket_includes ++ ". Up to " ++
          toString ss.laps_per_session_up_to ++ " laps per session; typical 3-session total: " ++
          toString ss.typical_three_session_total_laps ++ "."
        url := urls.book_tickets },
      { id := "multi_session_deals"
        text := "Session 2 & 3 discounted (pre-book by phone). Session 3 tiers: 1–4 £12; 5–8 £11; 9–12 £10."
        url := urls.book_tickets },
      { id := "promotions"
        text := "Promotional discounts do not apply on Saturdays."
        url := urls.terms },
      { id := "f1_sim"
        text := "F1 simulator at Gillingham. 50% off with Karting Central tickets."
        url := urls.home },
      { id := "tracking_and_tickets"
        text := "Tracking codes for managing tickets. Gifting available via Customer Dashboard."
        url := urls.customer_dashboard }] ++
      fa.map (fun f =>
        { id := "fast_" ++ f.intent, text := f.intent ++ ": " ++ f.answer
          url := urls.home }))
  | _, _, _, _, _, _, _ => none

/-- `fetchKB` of the earlier server (src/unnamed/part_001), which checks
the payload for the required sections site/opening/fast_answers before the
snapshot is replaced, rejecting incomplete payloads wholesale. -/
def fetchKBChecked (kbUrlSet : Bool) (_force : Bool) (resp : FetchResp)
    (embed : List String → List Vec) (s : KBState) : Except String Bool × KBState :=
  if !kbUrlSet then (.error "KB_URL not set", s)
  else
    match resp with
    | .notModified => (.ok false, s)
    | .httpError st => (.error ("KB fetch failed: " ++ toString st), s)
    | .ok body et lm =>
      match body with
      | .error e => (.error e, s)
      | .ok j =>
        if j.site.isNone || j.opening.isNone || j.fast_answers.isNone then
          (.error "KB missing required sections (site/opening/fast_answers)", s)
        else
          let s1 := { s with kb := some j, etag := jsOrS et s.etag,
                             lastModified := jsOrS lm s.lastModified }
          match flattenDocsFromKBLegacy j with
          | none => (.error "TypeError in flattenDocsFromKB", s1)
          | some docs =>
            let vecs := mkVectors docs (embed (docs.map (fun d => d.text)))
            (.ok true, { s1 with docs := docs, vectors := vecs })

/- ===== Interleaved view of loads (cooperative scheduling) ===== -/

/-- The dot-product loop body shared by `cosine`'s three accumulators. -/
noncomputable def dotl (a b : Vec) : ℝ :=
  (List.zipWith (fun x y => x * y) a b).sum

/-- `cosine` from the server: dot product over the product of Euclidean
norms, with the `|| 1` guard for a zero denominator.  The JS loop runs over
the indices of `a`; for the equal-length vectors the claims quantify over,
the `zipWith` sums coincide with the loop sums. -/
noncomputable def cosine (a b : Vec) : ℝ :=
  let denom := if Real.sqrt (dotl a a) * Real.sqrt (dotl b b) = 0 then 1
    else Real.sqrt (dotl a a) * Real.sqrt (dotl b b)
  dotl a b / denom

/-- Stable insertion into a score-descending list: the inserted (earlier)
element passes a resident only when the resident's score is strictly
greater, so equal scores keep their original order — the behaviour of the
stable JS `sort((a, b) => b.score - a.score)`. -/
noncomputable def insertHit (x : ScoredHit) : List ScoredHit → List ScoredHit
  | [] => [x]
  | y :: ys => if x.score < y.score then y :: insertHit x ys else x :: y :: ys

/-- Stable score-descending sort, extensionally the JS stable `sort`. -/
noncomputable def sortHits : List ScoredHit → List ScoredHit
  | [] => []
  | x :: xs => insertHit x (sortHits xs)

/-- The scored list built by `retrieve` before sorting, in index order. -/
noncomputable def scoredHits (qEmb : Vec) (vectors : List VecEnt) : List ScoredHit :=
  vectors.map (fun v => ⟨v, cosine qEmb v.embedding⟩)

/-- `retrieve` from the server, with the query already embedded: an empty
index short-circuits to `[]` before any provider call; otherwise score all
entries, sort descending (stably) and take the first `k`. -/
noncomputable def retrieve (qEmb : Vec) (k : Nat) (vectors : List VecEnt) :
    List ScoredHit :=
  if vectors.length = 0 then []
  else (sortHits (scoredHits qEmb vectors)).take k

/- ===== Concrete payloads used by witnesses and counterexamples ===== -/

/-- Is a route one of the two clarifying questions. -/
def isClarify : Route → Bool
  | .askTrack _ => true
  | .askDay _ => true
  | _ => false

/-- A Gillingham track record as found in the knowledge payload. -/
def gillinghamTrack : TrackSec :=
  { id := "gillingham", name := "Gillingham", region := "Kent", indoor := some true }

/-- A Mile End track record as found in the knowledge payload. -/
def mileEndTrack : TrackSec :=
  { id := "mile_end", name := "Mile End", region := "London", indoor := some false }

/-- A small well-formed knowledge payload with both tracks. -/
def kbSample : KBJson :=
  { site := some { urls := some {}, tracks := some [gillinghamTrack, mileEndTrack] }
    opening := some { days := some "Open daily", hours := some "12:00-22:00" }
    fast_answers := some [] }

/-- The structurally empty payload: well-formed JSON with every required
section missing. -/
def kbEmptyPayload : KBJson := {}

/-- A generation result wrapped in a markdown code fence. -/
def fencedOutput : String := "```html\n<p>Hi</p>\n```"


/- ===== Helper lemmas ===== -/

@[simp]
theorem pushTurn_slots (s : Sess) (role content : String) :
    (pushTurn s role content).slots = s.slots := rfl

@[simp]
theorem fastRouteReply_snd (q : String) (kb : KBJson) (sl : Slots) :
    (fastRouteReply q kb sl).2 = updateSlots q sl := rfl

theorem updateSlots_trackId_of_none {q : String} (sl : Slots)
    (h : detectTrackIdFromText q = none) : (updateSlots q sl).trackId = sl.trackId := by
  unfold updateSlots
  rw [h]
  cases extractDayFromText q <;> rfl

theorem updateSlots_trackId_isSome {q : String} {sl : Slots}
    (h : sl.trackId.isSome = true) : (updateSlots q sl).trackId.isSome = true := by
  unfold updateSlots
  cases detectTrackIdFromText q <;> cases extractDayFromText q <;> simp_all

theorem updateSlots_day_isSome {q : String} {sl : Slots}
    (h : sl.day.isSome = true) : (updateSlots q sl).day.isSome = true := by
  unfold updateSlots
  cases detectTrackIdFromText q <;> cases extractDayFromText q <;> simp_all

theorem routeQuery_snd_slots (q : String) (kb : KBJson) (sess : Sess) :
    ((routeQuery q kb sess).2).slots = updateSlots q sess.slots := by
  unfold routeQuery
  cases hfr : (fastRouteReply q kb sess.slots).1
  · simp only [hfr]
    split_ifs <;> simp
  · simp [hfr]

/- ===== C7 ===== -/

/-- C7: a non-forced load answered "not modified" returns `unchanged`
(`false`) and leaves the snapshot, the chunk list and the vector index —
indeed the whole module state — exactly as before the call. -/
theorem C7_not_modified_frame (embed : List String → List Vec) (s : KBState) :
    fetchKB true false FetchResp.notModified embed s = (Except.ok false, s) := rfl

/- ===== C1 ===== -/

/-- C1 counterexample: the current server's `fetchKB` ingests a well-formed
but structurally empty payload (every required section missing) wholesale:
the call succeeds (`changed`) and the previous snapshot is replaced — the
payload is not rejected and no error is surfaced. -/
theorem C1_counterexample :
    (fetchKB true true (FetchResp.ok (Except.ok kbEmptyPayload) none none)
        (fun texts => texts.map (fun _ => ([] : Vec)))
        { kb := some kbSample }).1 = Except.ok true ∧
    (fetchKB true true (FetchResp.ok (Except.ok kbEmptyPayload) none none)
        (fun texts => texts.map (fun _ => ([] : Vec)))
        { kb := some kbSample }).2.kb = some kbEmptyPayload :=
  ⟨rfl, rfl⟩

/-- C1 amended: payloads that fail JSON parsing are rejected by the current
`fetchKB` with the whole state unchanged and the error surfaced; and in the
earlier server's `fetchKB` (which carries the structural sanity check), a
payload missing one of the required sections site/opening/fast_answers is
rejected wholesale, the previous snapshot/chunks/vectors keep serving, and
the error is surfaced to the caller.  The current server ingests
structurally incomplete well-formed payloads (see the counterexample). -/
theorem C1_amended_reject (force : Bool) (et lm : Option String)
    (embed : List String → List Vec) (s : KBState) (j : KBJson)
    (hmiss : j.site = none ∨ j.opening = none ∨ j.fast_answers = none) :
    fetchKBChecked true force (FetchResp.ok (Except.ok j) et lm) embed s =
      (Except.error "KB missing required sections (site/opening/fast_answers)", s) ∧
    (∀ msg : String,
      fetchKB true force (FetchResp.ok (Except.error msg) et lm) embed s =
        (Except.error msg, s)) := by
  constructor
  · have hc : (j.site.isNone || j.opening.isNone || j.fast_answers.isNone) = true := by
      rcases hmiss with h | h | h <;> simp [h]
    simp [fetchKBChecked, hc]
  · intro msg
    rfl

/-- Witness for C1's amended theorem at the structurally empty payload. -/
theorem C1_amended_reject_witness :
    kbEmptyPayload.site = none ∧
    (fetchKBChecked true true (FetchResp.ok (Except.ok kbEmptyPayload) none none)
        (fun texts => texts.map (fun _ => ([] : Vec))) {} =
      (Except.error "KB missing required sections (site/opening/fast_answers)",
        ({} : KBState)) ∧
     ∀ msg : String,
       fetchKB true true (FetchResp.ok (Except.error msg) none none)
          (fun texts => texts.map (fun _ => ([] : Vec))) {} =
         (Except.error msg, ({} : KBState))) :=
  ⟨rfl, C1_amended_reject true none none
    (fun texts => texts.map (fun _ => ([] : Vec))) {} kbEmptyPayload (Or.inl rfl)⟩

/- ===== C5 ===== -/

/-- C5: for any two sessions with arbitrary slot states and the same
snapshot, a query matching the track-location topic produces the same
canned multi-location listing, built from the snapshot alone — the fast
route never reads the slots. -/
theorem C5_fast_route_slot_independent (query : String) (kb : KBJson)
    (slots slots' : Slots)
    (hq : hasAny (normQ query) locationKeywords = true)
    (ht : kbTracks kb ≠ []) :
    (fastRouteReply query kb slots).1 = (fastRouteReply query kb slots').1 ∧
    (fastRouteReply query kb slots).1 =
      some ("We currently run tracks in <strong>" ++
        String.intercalate " and "
          ((kbTracks kb).map (fun t => t.name ++ " (" ++ t.region ++ ")")) ++
        "</strong>." ++ "<br>Which one are you looking at?") := by
  have hb : buildTracksHtml kb =
      some ("We currently run tracks in <strong>" ++
        String.intercalate " and "
          ((kbTracks kb).map (fun t => t.name ++ " (" ++ t.region ++ ")")) ++
        "</strong>.") := by
    unfold buildTracksHtml
    simp [ht]
  constructor
  · simp [fastRouteReply, hq, hb]
  · simp [fastRouteReply, hq, hb]

/-- Witness for C5 at the query "where are your tracks" with two sessions
whose track slots differ. -/
theorem C5_fast_route_slot_independent_witness :
    hasAny (normQ "where are your tracks") locationKeywords = true ∧
    kbTracks kbSample ≠ [] ∧
    ((fastRouteReply "where are your tracks" kbSample {}).1 =
      (fastRouteReply "where are your tracks" kbSample
        { trackId := some "gillingham" }).1 ∧
     (fastRouteReply "where are your tracks" kbSample {}).1 =
      some ("We currently run tracks in <strong>" ++
        String.intercalate " and "
          ((kbTracks kbSample).map (fun t => t.name ++ " (" ++ t.region ++ ")")) ++
        "</strong>." ++ "<br>Which one are you looking at?")) :=
  ⟨by decide, by decide,
   C5_fast_route_slot_independent "where are your tracks" kbSample {}
     { trackId := some "gillingham" } (by decide) (by decide)⟩

/- ===== C4 ===== -/

/-- C4 counterexample: the query "Can I book at Gillingham?" matches a
disambiguation keyword ("book"), matches no general keyword, matches no
fast route, and arrives in a session with no track slot set — yet the
handler does not return the track-clarifying question: the message itself
names a track, the slot-update step fills the slot from it, and the
handler proceeds to generation. -/
theorem C4_counterexample :
    hasAny (normQ "Can I book at Gillingham?") eligibilityTopics = true ∧
    hasAny (normQ "Can I book at Gillingham?") generalTopics = false ∧
    (fastRouteReply "Can I book at Gillingham?" kbSample ({} : Sess).slots).1 = none ∧
    ({} : Sess).slots.trackId = none ∧
    (routeQuery "Can I book at Gillingham?" kbSample {}).1 = Route.toGen :=
  ⟨by decide, by decide, by decide, rfl, by decide⟩

/-- C4 amended: (a) a query matching a general keyword never yields a
track/day clarifying question; (b) a query matching a disambiguation
keyword, no general keyword and no fast route, which itself names no
track, arriving with no track slot set, yields the track-clarifying
question, and the response is independent of the retrieval and generation
oracles (no retrieval, no generation); (c) a query matching neither
keyword set yields no clarifying question. -/
theorem C4_amended (q : String) (kb : KBJson) (sess : Sess) :
    (hasAny (normQ q) generalTopics = true →
      isClarify (routeQuery q kb sess).1 = false) ∧
    (hasAny (normQ q) generalTopics = false →
      hasAny (normQ q) eligibilityTopics = true →
      (fastRouteReply q kb sess.slots).1 = none →
      detectTrackIdFromText q = none →
      sess.slots.trackId = none →
      ((routeQuery q kb sess).1 = Route.askTrack trackQuestion ∧
       ∀ (sid : String) (retrieved retrieved' : List ScoredHit)
         (gen gen' : Option String),
         handleRequest (some q) (some kb) sid sess retrieved gen =
           handleRequest (some q) (some kb) sid sess retrieved' gen')) ∧
    (hasAny (normQ q) generalTopics = false →
      hasAny (normQ q) eligibilityTopics = false →
      isClarify (routeQuery q kb sess).1 = false) := by
  refine ⟨?_, ?_, ?_⟩
  · intro hg
    have hne : questionNeedsEligibility q = false := by
      simp [questionNeedsEligibility, hg]
    unfold routeQuery
    cases hfr : (fastRouteReply q kb sess.slots).1 <;> simp [hfr, hne, isClarify]
  · intro hg he hfr hdet hslot
    have hne : questionNeedsEligibility q = true := by
      simp [questionNeedsEligibility, hg, he]
    have htid : (updateSlots q sess.slots).trackId = none := by
      rw [updateSlots_trackId_of_none _ hdet, hslot]
    have hroute : (routeQuery q kb sess).1 = Route.askTrack trackQuestion := by
      unfold routeQuery
      simp [hfr, hne, htid, truthyS]
    refine ⟨hroute, ?_⟩
    intro sid retrieved retrieved' gen gen'
    cases hq0 : decide (q = "") with
    | true =>
      have : q = "" := of_decide_eq_true hq0
      simp [handleRequest, this]
    | false =>
      have hqne : ¬ q = "" := of_decide_eq_false hq0
      simp only [handleRequest, if_neg hqne]
      rw [hroute]
  · intro hg he
    have hne : questionNeedsEligibility q = false := by
      simp [questionNeedsEligibility, hg, he]
    unfold routeQuery
    cases hfr : (fastRouteReply q kb sess.slots).1 <;> simp [hfr, hne, isClarify]

/-- Witness for C4's amended theorem at the spec's own example query. -/
theorem C4_amended_witness :
    hasAny (normQ "I want to book for Saturday") generalTopics = false ∧
    hasAny (normQ "I want to book for Saturday") eligibilityTopics = true ∧
    (fastRouteReply "I want to book for Saturday" kbSample ({} : Sess).slots).1 = none ∧
    detectTrackIdFromText "I want to book for Saturday" = none ∧
    (routeQuery "I want to book for Saturday" kbSample {}).1 = Route.askTrack trackQuestion :=
  ⟨by decide, by decide, by decide, by decide,
   ((C4_amended "I want to book for Saturday" kbSample {}).2.1
     (by decide) (by decide) (by decide) (by decide) rfl).1⟩

/- ===== C6 ===== -/

theorem stepSession_slots (sess : Sess) (r : ReqIn) :
    (sess.slots.trackId.isSome = true →
      (stepSession sess r).slots.trackId.isSome = true) ∧
    (sess.slots.day.isSome = true →
      (stepSession sess r).slots.day.isSome = true) := by
  cases hq : r.query with
  | none =>
    simp only [stepSession, handleRequest, hq]
    exact ⟨fun h => h, fun h => h⟩
  | some q =>
    by_cases hq0 : q = ""
    · simp only [stepSession, handleRequest, hq, hq0, if_true]
      exact ⟨fun h => h, fun h => h⟩
    · cases hkb : r.kb with
      | none =>
        simp only [stepSession, handleRequest, hq, if_neg hq0, hkb]
        exact ⟨fun h => h, fun h => h⟩
      | some k =>
        have hs := routeQuery_snd_slots q k sess
        cases hr : (routeQuery q k sess).1 <;>
          simp only [stepSession, handleRequest, hq, if_neg hq0, hkb, hr] <;>
          exact ⟨fun h => by
              simp only [pushTurn_slots, hs]
              exact updateSlots_trackId_isSome h,
            fun h => by
              simp only [pushTurn_slots, hs]
              exact updateSlots_day_isSome h⟩

/-- C6: within one session lifetime, slots only move forward: once the
track slot (or the day slot) is set, it stays set after any sequence of
requests — values may be overwritten by newly detected ones but are never
cleared. -/
theorem C6_slots_monotone (rs : List ReqIn) (sess : Sess) :
    (sess.slots.trackId.isSome = true →
      ((runSession rs sess).slots.trackId).isSome = true) ∧
    (sess.slots.day.isSome = true →
      ((runSession rs sess).slots.day).isSome = true) := by
  induction rs generalizing sess with
  | nil => exact ⟨fun h => h, fun h => h⟩
  | cons r rs ih =>
    constructor
    · intro h
      exact (ih (stepSession sess r)).1 ((stepSession_slots sess r).1 h)
    · intro h
      exact (ih (stepSession sess r)).2 ((stepSession_slots sess r).2 h)

/-- Witness for C6: a session with both slots set keeps them set across a
request. -/
theorem C6_slots_monotone_witness :
    (({ slots := { trackId := some "gillingham", day := some "Saturday" } } : Sess)).slots.trackId.isSome = true ∧
    ((runSession [⟨some "how many laps", some kbSample, "sid", [], some "ok"⟩]
        { slots := { trackId := some "gillingham", day := some "Saturday" } }).slots.trackId).isSome = true :=
  ⟨rfl, (C6_slots_monotone [⟨some "how many laps", some kbSample, "sid", [], some "ok"⟩]
    { slots := { trackId := some "gillingham", day := some "Saturday" } }).1 rfl⟩

/- ===== C10 ===== -/

/-- C10: every fast-route or clarifying-question response carries an empty
sources list while still including the sessionId; a generation-path
response carries one source entry per retrieved chunk, in order. -/
theorem C10_sources (q : String) (hq : q ≠ "") (kb : KBJson) (sid : String)
    (sess : Sess) (retrieved : List ScoredHit) (gen : Option String) :
    ∃ route reply sess2,
      handleRequest (some q) (some kb) sid sess retrieved gen =
        HandlerResult.ok route reply sess2 ∧
      reply.sessionId = sid ∧
      (isClarify route = true → reply.sources = []) ∧
      (∀ h, route = Route.fast h → reply.sources = []) ∧
      (route = Route.toGen →
        reply.sources = retrieved.map (fun rr => ⟨rr.v.id, rr.v.meta.url⟩) ∧
        reply.sources.length = retrieved.length) := by
  cases hr : (routeQuery q kb sess).1 with
  | fast html =>
    refine ⟨Route.fast html, ⟨html, [], sid⟩, (routeQuery q kb sess).2,
      ?_, rfl, fun _ => rfl, fun _ _ => rfl, fun hcon => Route.noConfusion hcon⟩
    simp only [handleRequest, if_neg hq, hr]
  | askTrack html =>
    refine ⟨Route.askTrack html, ⟨html, [], sid⟩, (routeQuery q kb sess).2,
      ?_, rfl, fun _ => rfl, fun _ hcon => Route.noConfusion hcon,
      fun hcon => Route.noConfusion hcon⟩
    simp only [handleRequest, if_neg hq, hr]
  | askDay html =>
    refine ⟨Route.askDay html, ⟨html, [], sid⟩, (routeQuery q kb sess).2,
      ?_, rfl, fun _ => rfl, fun _ hcon => Route.noConfusion hcon,
      fun hcon => Route.noConfusion hcon⟩
    simp only [handleRequest, if_neg hq, hr]
  | toGen =>
    refine ⟨Route.toGen,
      ⟨genResponseText gen, retrieved.map (fun rr => ⟨rr.v.id, rr.v.meta.url⟩), sid⟩,
      pushTurn (pushTurn (routeQuery q kb sess).2 "user" q) "assistant"
        (stripHtmlToText (genResponseText gen)),
      ?_, rfl, ?_, fun _ hcon => Route.noConfusion hcon,
      fun _ => ⟨rfl, List.length_map _ _⟩⟩
    · simp only [handleRequest, if_neg hq, hr]
    · intro hcon
      simp [isClarify] at hcon

/-- Witness for C10 at a concrete request. -/
theorem C10_sources_witness :
    ("hello" ≠ "") ∧
    (∃ route reply sess2,
      handleRequest (some "hello") (some kbSample) "sid" {} [] none =
        HandlerResult.ok route reply sess2 ∧
      reply.sessionId = "sid" ∧
      (isClarify route = true → reply.sources = []) ∧
      (∀ h, route = Route.fast h → reply.sources = []) ∧
      (route = Route.toGen →
        reply.sources = ([] : List ScoredHit).map (fun rr => ⟨rr.v.id, rr.v.meta.url⟩) ∧
        reply.sources.length = ([] : List ScoredHit).length)) :=
  ⟨by decide, C10_sources "hello" (by decide) kbSample "sid" {} [] none⟩

/- ===== C9 ===== -/

theorem enforceGBP_no_dollar (o : Option String) : '$' ∉ (enforceGBP o).toList := by
  unfold enforceGBP
  intro hmem
  rcases List.mem_map.mp hmem with ⟨c, _, hc⟩
  by_cases h : c = '$'
  · rw [if_pos h] at hc
    exact absurd hc (by decide)
  · rw [if_neg h] at hc
    exact h hc

/-- C9 counterexample: a generation result wrapped in a markdown code fence
is returned to the caller unchanged — the wrapping markup is not stripped
from the response (`stripHtmlToText` is applied only to the session-history
copy). -/
theorem C9_counterexample :
    genResponseText (some fencedOutput) = fencedOutput ∧
    strContains fencedOutput "```" = true ∧
    strContains (genResponseText (some fencedOutput)) "<p>" = true :=
  ⟨by decide, by decide, by decide⟩

/-- C9 amended: the response text returned on the generation path is
currency-normalized — every dollar sign has been replaced by a pound sign,
so the returned text contains no dollar sign; wrapping markup, however, is
not stripped from the returned text (see the counterexample — only the
session-history copy is stripped). -/
theorem C9_amended_no_dollar (gen : Option String) :
    '$' ∉ (genResponseText gen).toList := by
  have hdef : genResponseText gen =
      if enforceGBP (Option.map trimStr gen) = "" then genFallback
      else enforceGBP (Option.map trimStr gen) := rfl
  rw [hdef]
  split_ifs with h
  · decide
  · exact enforceGBP_no_dollar _

/- ===== C2 ===== -/

theorem insertHit_length (x : ScoredHit) (l : List ScoredHit) :
    (insertHit x l).length = l.length + 1 := by
  induction l with
  | nil => rfl
  | cons y ys ih =>
    unfold insertHit
    split_ifs
    · simp [ih]
    · simp

theorem sortHits_length (l : List ScoredHit) : (sortHits l).length = l.length := by
  induction l with
  | nil => rfl
  | cons x xs ih =>
    show (insertHit x (sortHits xs)).length = xs.length + 1
    rw [insertHit_length, ih]

theorem mem_insertHit {a x : ScoredHit} : ∀ {l : List ScoredHit},
    a ∈ insertHit x l → a = x ∨ a ∈ l := by
  intro l
  induction l with
  | nil =>
    intro h
    simp [insertHit] at h
    exact Or.inl h
  | cons y ys ih =>
    intro h
    unfold insertHit at h
    split_ifs at h with hc
    · rcases List.mem_cons.mp h with h1 | h2
      · exact Or.inr (List.mem_cons.mpr (Or.inl h1))
      · rcases ih h2 with h3 | h4
        · exact Or.inl h3
        · exact Or.inr (List.mem_cons.mpr (Or.inr h4))
    · rcases List.mem_cons.mp h with h1 | h2
      · exact Or.inl h1
      · exact Or.inr h2

theorem insertHit_pairwise (x : ScoredHit) : ∀ {l : List ScoredHit},
    l.Pairwise (fun a b => b.score ≤ a.score) →
    (insertHit x l).Pairwise (fun a b => b.score ≤ a.score) := by
  intro l
  induction l with
  | nil =>
    intro _
    simp [insertHit]
  | cons y ys ih =>
    intro hl
    rcases List.pairwise_cons.mp hl with ⟨hy, hys⟩
    unfold insertHit
    split_ifs with hc
    · refine List.pairwise_cons.mpr ⟨?_, ih hys⟩
      intro z hz
      rcases mem_insertHit hz with h1 | h2
      · rw [h1]
        exact le_of_lt hc
      · exact hy z h2
    · refine List.pairwise_cons.mpr ⟨?_, hl⟩
      intro z hz
      rcases List.mem_cons.mp hz with h1 | h2
      · rw [h1]
        exact le_of_not_lt hc
      · exact le_trans (hy z h2) (le_of_not_lt hc)

theorem sortHits_pairwise (l : List ScoredHit) :
    (sortHits l).Pairwise (fun a b => b.score ≤ a.score) := by
  induction l with
  | nil => simp [sortHits]
  | cons x xs ih => exact insertHit_pairwise x ih

theorem insertHit_split (x : ScoredHit) : ∀ (l : List ScoredHit),
    ∃ l₁ l₂, insertHit x l = l₁ ++ x :: l₂ ∧ l = l₁ ++ l₂ ∧
      ∀ y ∈ l₁, x.score < y.score := by
  intro l
  induction l with
  | nil => exact ⟨[], [], rfl, rfl, by simp⟩
  | cons y ys ih =>
    by_cases hc : x.score < y.score
    · rcases ih with ⟨l₁, l₂, h1, h2, h3⟩
      refine ⟨y :: l₁, l₂, ?_, ?_, ?_⟩
      · simp [insertHit, hc, h1]
      · simp [h2]
      · intro z hz
        rcases List.mem_cons.mp hz with hz1 | hz2
        · rw [hz1]
          exact hc
        · exact h3 z hz2
    · refine ⟨[], y :: ys, ?_, rfl, by simp⟩
      simp [insertHit, hc]

theorem insertHit_filter_score (x : ScoredHit) (l : List ScoredHit) (s : ℝ) :
    (insertHit x l).filter (fun e => decide (e.score = s)) =
      if x.score = s then x :: l.filter (fun e => decide (e.score = s))
      else l.filter (fun e => decide (e.score = s)) := by
  rcases insertHit_split x l with ⟨l₁, l₂, h1, h2, h3⟩
  rw [h1, h2, List.filter_append, List.filter_append, List.filter_cons]
  by_cases hx : x.score = s
  · have hl₁ : l₁.filter (fun e => decide (e.score = s)) = [] := by
      rw [List.filter_eq_nil_iff]
      intro a ha
      have hgt := h3 a ha
      simp only [decide_eq_true_eq]
      rw [hx] at hgt
      exact ne_of_gt hgt
    simp [hx, hl₁]
  · simp [hx]

theorem sortHits_filter_score (l : List ScoredHit) (s : ℝ) :
    (sortHits l).filter (fun e => decide (e.score = s)) =
      l.filter (fun e => decide (e.score = s)) := by
  induction l with
  | nil => rfl
  | cons x xs ih =>
    show (insertHit x (sortHits xs)).filter _ = _
    rw [insertHit_filter_score]
    by_cases hx : x.score = s
    · simp [hx, ih, List.filter_cons]
    · simp [hx, ih, List.filter_cons]

/-- C3: Retrieve returns at most k entries, sorted by non-increasing score;
the sort is stable — at every score value, the sorted list's entries are
exactly the scored list's entries in their original chunk order; and an
empty index yields the empty sequence without error. -/
theorem C3_retrieve_spec (qEmb : Vec) (k : Nat) (vectors : List VecEnt) :
    (retrieve qEmb k vectors).length ≤ k ∧
    (retrieve qEmb k vectors).Pairwise (fun a b => b.score ≤ a.score) ∧
    retrieve qEmb k vectors = (sortHits (scoredHits qEmb vectors)).take k ∧
    (∀ s : ℝ,
      (sortHits (scoredHits qEmb vectors)).filter (fun e => decide (e.score = s)) =
        (scoredHits qEmb vectors).filter (fun e => decide (e.score = s))) ∧
    retrieve qEmb k [] = [] := by
  have heq : retrieve qEmb k vectors = (sortHits (scoredHits qEmb vectors)).take k := by
    unfold retrieve
    split_ifs with h
    · have hv : vectors = [] := List.length_eq_zero.mp h
      subst hv
      simp [scoredHits, sortHits]
    · rfl
  refine ⟨?_, ?_, heq, fun s => sortHits_filter_score _ s, rfl⟩
  · rw [heq, List.length_take]
    exact min_le_left _ _
  · rw [heq]
    exact (sortHits_pairwise _).sublist (List.take_sublist _ _)

/- ===== C8 ===== -/

theorem dotl_comm (a b : Vec) : dotl a b = dotl b a := by
  unfold dotl
  rw [List.zipWith_comm_of_comm (fun x y => x * y) mul_comm]

theorem dotl_cons (x y : ℝ) (xs ys : Vec) :
    dotl (x :: xs) (y :: ys) = x * y + dotl xs ys := by
  simp [dotl]

theorem dotl_self_nonneg (a : Vec) : 0 ≤ dotl a a := by
  induction a with
  | nil => simp [dotl]
  | cons x xs ih =>
    rw [dotl_cons]
    exact add_nonneg (mul_self_nonneg x) ih

theorem dotl_self_zero (a : Vec) : ∀ (b : Vec), a.length = b.length →
    dotl a a = 0 → dotl a b = 0 := by
  induction a with
  | nil =>
    intro b hlen _
    cases b with
    | nil => simp [dotl]
    | cons y ys => simp at hlen
  | cons x xs ih =>
    intro b hlen hz
    cases b with
    | nil => simp at hlen
    | cons y ys =>
      simp only [List.length_cons, Nat.succ.injEq] at hlen
      rw [dotl_cons] at hz
      have h1 : 0 ≤ x * x := mul_self_nonneg x
      have h2 : 0 ≤ dotl xs xs := dotl_self_nonneg xs
      have hxx : x * x = 0 := by linarith
      have hrest : dotl xs xs = 0 := by linarith
      have hx0 : x = 0 := mul_self_eq_zero.mp hxx
      rw [dotl_cons, hx0, zero_mul, zero_add]
      exact ih ys hlen hrest

theorem dotl_eq_sum_range (a : Vec) : ∀ (b : Vec), a.length = b.length →
    dotl a b = ∑ i ∈ Finset.range a.length, a.getD i 0 * b.getD i 0 := by
  induction a with
  | nil =>
    intro b hlen
    cases b with
    | nil => simp [dotl]
    | cons y ys => simp at hlen
  | cons x xs ih =>
    intro b hlen
    cases b with
    | nil => simp at hlen
    | cons y ys =>
      simp only [List.length_cons, Nat.succ.injEq] at hlen
      rw [dotl_cons, List.length_cons, Finset.sum_range_succ']
      simp only [List.getD_cons_succ, List.getD_cons_zero]
      rw [← ih ys hlen]
      ring

theorem dotl_le_sqrt_mul_sqrt (a b : Vec) (h : a.length = b.length) :
    dotl a b ≤ Real.sqrt (dotl a a) * Real.sqrt (dotl b b) := by
  have hcs := Real.sum_mul_le_sqrt_mul_sqrt (Finset.range a.length)
    (fun i => a.getD i 0) (fun i => b.getD i 0)
  have ha : ∑ i ∈ Finset.range a.length, (a.getD i 0) ^ 2 = dotl a a := by
    rw [dotl_eq_sum_range a a rfl]
    exact Finset.sum_congr rfl (fun i _ => pow_two _)
  have hb : ∑ i ∈ Finset.range a.length, (b.getD i 0) ^ 2 = dotl b b := by
    rw [dotl_eq_sum_range b b rfl, h]
    exact Finset.sum_congr rfl (fun i _ => pow_two _)
  rw [ha, hb] at hcs
  rw [dotl_eq_sum_range a b h]
  exact hcs

theorem cosine_self (a : Vec) :
    cosine a a = if dotl a a = 0 then 0 else 1 := by
  have hdef : cosine a a = dotl a a /
      (if Real.sqrt (dotl a a) * Real.sqrt (dotl a a) = 0 then 1
       else Real.sqrt (dotl a a) * Real.sqrt (dotl a a)) := rfl
  have hs : Real.sqrt (dotl a a) * Real.sqrt (dotl a a) = dotl a a :=
    Real.mul_self_sqrt (dotl_self_nonneg a)
  rw [hdef, hs]
  split_ifs with h
  · rw [h]
    simp
  · exact div_self h

/-- C8: for equal-length vectors, cosine is symmetric, and cosine(a,a) is
the maximum score achievable by cosine(a,b) over vectors b of that
length. -/
theorem C8_cosine_sym_max (a b : Vec) (h : a.length = b.length) :
    cosine a b = cosine b a ∧ cosine a b ≤ cosine a a := by
  have hdefab : cosine a b = dotl a b /
      (if Real.sqrt (dotl a a) * Real.sqrt (dotl b b) = 0 then 1
       else Real.sqrt (dotl a a) * Real.sqrt (dotl b b)) := rfl
  constructor
  · have hdefba : cosine b a = dotl b a /
        (if Real.sqrt (dotl b b) * Real.sqrt (dotl a a) = 0 then 1
         else Real.sqrt (dotl b b) * Real.sqrt (dotl a a)) := rfl
    rw [hdefab, hdefba, dotl_comm b a, mul_comm (Real.sqrt (dotl b b))]
  · have hna := dotl_self_nonneg a
    have hnb := dotl_self_nonneg b
    have hcosaa := cosine_self a
    rcases eq_or_lt_of_le hna with hz | hpos
    · have hab : dotl a b = 0 := dotl_self_zero a b h hz.symm
      rw [hdefab, hab, zero_div, hcosaa, if_pos hz.symm]
    · have hane : dotl a a ≠ 0 := ne_of_gt hpos
      rw [hcosaa, if_neg hane]
      rcases eq_or_lt_of_le hnb with hzb | hposb
      · have hba : dotl b a = 0 := dotl_self_zero b a h.symm hzb.symm
        have hab : dotl a b = 0 := by
          rw [dotl_comm]
          exact hba
        rw [hdefab, hab, zero_div]
        exact zero_le_one
      · have hsa : 0 < Real.sqrt (dotl a a) := Real.sqrt_pos.mpr hpos
        have hsb : 0 < Real.sqrt (dotl b b) := Real.sqrt_pos.mpr hposb
        have hd : 0 < Real.sqrt (dotl a a) * Real.sqrt (dotl b b) := mul_pos hsa hsb
        rw [hdefab, if_neg (ne_of_gt hd), div_le_one hd]
        exact dotl_le_sqrt_mul_sqrt a b h

/-- Witness for C8 at the one-dimensional vectors [1] and [0]. -/
theorem C8_cosine_sym_max_witness :
    ([(1 : ℝ)].length = [(0 : ℝ)].length) ∧
    (cosine [(1 : ℝ)] [(0 : ℝ)] = cosine [(0 : ℝ)] [(1 : ℝ)] ∧
     cosine [(1 : ℝ)] [(0 : ℝ)] ≤ cosine [(1 : ℝ)] [(1 : ℝ)]) :=
  ⟨rfl, C8_cosine_sym_max [(1 : ℝ)] [(0 : ℝ)] rfl⟩
